import Mathlib

/-!
Shallow embedding of the QuanBuy frontend (React components under
`src/frontend/src/components/`) and verification of the specified
properties of its input capture, dispatcher, renderer and app controller.

JavaScript semantics used by the embedding:
* strings are Lean `String`s, `===` on strings is `==`;
* JS numbers arising from `parseFloat` of price strings are modelled over ℚ
  (`none` models `NaN`);
* a thrown and uncaught exception is `Except.error`;
* absent object fields / `null` are `Option.none`.
-/

namespace QuanBuy

/-- Decidable equality for `Except`, so that concrete runs of fallible
handlers can be checked by `decide`. -/
instance {ε α : Type} [DecidableEq ε] [DecidableEq α] : DecidableEq (Except ε α)
  | .error e, .error f =>
    if h : e = f then .isTrue (by rw [h]) else .isFalse fun k => h (Except.error.inj k)
  | .error _, .ok _ => .isFalse fun k => Except.noConfusion k
  | .ok _, .error _ => .isFalse fun k => Except.noConfusion k
  | .ok a, .ok b =>
    if h : a = b then .isTrue (by rw [h]) else .isFalse fun k => h (Except.ok.inj k)

/-- Test whether the character list `s` begins with the pattern `p`
(structurally recursive so that concrete instances evaluate in the
kernel). -/
def beginsWith : List Char → List Char → Bool
  | _, [] => true
  | [], _ :: _ => false
  | c :: cs, d :: ds => c == d && beginsWith cs ds

/-- JavaScript `String.prototype.startsWith`. -/
def jsStartsWith (s p : String) : Bool :=
  beginsWith s.data p.data

/-- JavaScript `String.prototype.trim` (whitespace per `Char.isWhitespace`,
which covers the characters appearing in this development). -/
def jsTrim (s : String) : String :=
  String.mk (((s.data.dropWhile Char.isWhitespace).reverse.dropWhile Char.isWhitespace).reverse)

/-- Fuel-driven split of a character list at every non-overlapping,
leftmost-first occurrence of the non-empty pattern `pat`; `fuel` at least
the length of the list makes it total. -/
def splitOnFuel (pat : List Char) : Nat → List Char → List (List Char)
  | _, [] => [[]]
  | 0, s => [s]
  | fuel + 1, c :: cs =>
    if beginsWith (c :: cs) pat then
      [] :: splitOnFuel pat fuel ((c :: cs).drop pat.length)
    else
      match splitOnFuel pat fuel cs with
      | [] => [[c]]
      | h :: t => (c :: h) :: t

/-- JavaScript `String.prototype.split` with a non-empty string separator
(the only use in this code base). -/
def jsSplitOn (s pat : String) : List String :=
  if pat.data.isEmpty then [s]
  else (splitOnFuel pat.data s.data.length s.data).map String.mk

/-- Concatenation of the split segments with the separator put back, used
to express first-occurrence replacement. -/
def joinWith (sep : String) : List String → String
  | [] => ""
  | [x] => x
  | x :: xs => x ++ sep ++ joinWith sep xs

/-- Store entry shape used by `ShoppingInput.jsx`: the `popularStores`
literals and the custom entries built by `handleUrlDrop`. The popular
entries carry no `custom` field (JS `undefined`, falsy), modelled by the
default `false`. -/
structure StoreEntry where
  name : String
  url : String
  icon : String
  custom : Bool := false
deriving DecidableEq

/-- The `popularStores` array literal of `ShoppingInput.jsx`. -/
def popularStores : List StoreEntry :=
  [ { name := "Amazon", url := "amazon.com", icon := "📦" },
    { name := "Target", url := "target.com", icon := "🎯" },
    { name := "Walmart", url := "walmart.com", icon := "🛒" },
    { name := "Best Buy", url := "bestbuy.com", icon := "🔌" },
    { name := "Nordstrom", url := "nordstrom.com", icon := "👗" },
    { name := "Home Depot", url := "homedepot.com", icon := "🔨" },
    { name := "Wayfair", url := "wayfair.com", icon := "🏠" },
    { name := "Etsy", url := "etsy.com", icon := "🎨" } ]

/-- Translation of `handleStoreToggle` (ShoppingInput.jsx lines 21-27):
`prev.find(s => s.url === store.url) ? prev.filter(s => s.url !== store.url)
: [...prev, store]`. -/
def handleStoreToggle (prev : List StoreEntry) (store : StoreEntry) : List StoreEntry :=
  if (prev.find? fun s => s.url == store.url).isSome then
    prev.filter fun s => s.url != store.url
  else
    prev ++ [store]

/-- Payload passed to `onSearchRequest` by `handleSearch`
(`{ type: searchType, prompt: promptText, stores: allSelectedStores }`). -/
structure SearchData where
  type : String
  prompt : String
  stores : List StoreEntry
deriving DecidableEq

/-- Translation of `handleSearch` (ShoppingInput.jsx lines 48-65). It
blocks (alert, no `onSearchRequest` call — modelled as `none`) exactly when
`searchType === "prompt" && !promptText.trim()`; otherwise it invokes
`onSearchRequest` with the assembled payload (modelled as `some`). -/
def handleSearch (searchType promptText : String)
    (selectedStores draggedUrls : List StoreEntry) : Option SearchData :=
  let allSelectedStores := selectedStores ++ draggedUrls
  if searchType == "prompt" && jsTrim promptText == "" then
    none
  else
    some { type := searchType, prompt := promptText, stores := allSelectedStores }

/-- Hostname extraction of the browser `URL` constructor
(`new URL(url).hostname`), modelled for the `scheme://host...` strings that
reach `handleUrlDrop`: parsing fails (the constructor throws, modelled as
`none`) when the string has no `://` separator or an empty scheme or host;
otherwise the authority segment up to the first `/`, `:`, `?` or `#` is
returned lowercased. -/
def urlHostname (url : String) : Option String :=
  match jsSplitOn url "://" with
  | scheme :: rest :: _ =>
    let host := String.mk
      ((rest.data.takeWhile fun c => !(c == '/' || c == ':' || c == '?' || c == '#')).map
        Char.toLower)
    if scheme == "" || host == "" then none else some host
  | _ => none

/-- JavaScript `String.prototype.replace` with a string pattern: replaces
only the first occurrence of `pat` in `s`. -/
def replaceFirst (s pat rep : String) : String :=
  match jsSplitOn s pat with
  | [] => s
  | [_] => s
  | a :: rest => a ++ rep ++ joinWith pat rest

/-- Capitalisation `domain.charAt(0).toUpperCase() + domain.slice(1)` used
for the custom store name. -/
def capFirst (s : String) : String :=
  match s.data with
  | [] => ""
  | c :: cs => String.mk (c.toUpper :: cs)

/-- Translation of `handleUrlDrop` (ShoppingInput.jsx lines 29-46), acting
on the `draggedUrls` state with the dropped `text/plain` payload. Strings
that are empty or do not start with `"http"` are ignored. For the rest,
`new URL(url)` is evaluated with no surrounding try/catch, so a parse
failure is an uncaught exception (`Except.error ()`); on success the
hostname with its first `"www."` occurrence removed is appended unless an
entry with that url already exists. -/
def handleUrlDrop (draggedUrls : List StoreEntry) (url : String) :
    Except Unit (List StoreEntry) :=
  if url != "" && jsStartsWith url "http" then
    match urlHostname url with
    | none => .error ()
    | some hostname =>
      let domain := replaceFirst hostname "www." ""
      let newStore : StoreEntry :=
        { name := capFirst domain, url := domain, icon := "🌐", custom := true }
      if (draggedUrls.find? fun s => s.url == domain).isSome then
        .ok draggedUrls
      else
        .ok (draggedUrls ++ [newStore])
  else
    .ok draggedUrls

/-- File object handed to `handleFileSelect`: MIME `type`, byte `size`, and
the data URI the `FileReader` produces for it (`reader.readAsDataURL`,
modelled as synchronously available). -/
structure JSFile where
  type : String
  size : Nat
  dataUrl : String
deriving DecidableEq

/-- Photo object passed to `onPhotoSelect` by `PhotoUpload.jsx`
(`{ file, base64, preview }`). -/
structure Photo where
  file : JSFile
  base64 : String
  preview : String
deriving DecidableEq

/-- Base64 payload extraction `e.target.result.split` at commas, index 1, of
`PhotoUpload.jsx` line 45; an absent index (JS `undefined`) is modelled as
`""`. -/
def dataUrlBase64 (dataUrl : String) : String :=
  (jsSplitOn dataUrl ",").getD 1 ""

/-- Translation of `handleFileSelect` (PhotoUpload.jsx lines 29-59) as its
effect on the photo state owned by the caller: returns the new photo state
(unchanged on rejection) together with the alert message, if any. -/
def handleFileSelect (file : JSFile) (currentPhoto : Option Photo) :
    Option Photo × Option String :=
  if !jsStartsWith file.type "image/" then
    (currentPhoto, some "Please select an image file")
  else if file.size > 5 * 1024 * 1024 then
    (currentPhoto, some "Image must be smaller than 5MB")
  else
    (some { file := file, base64 := dataUrlBase64 file.dataUrl, preview := file.dataUrl },
     none)

/-- One entry of the result list of a `SpeechRecognitionEvent` from
`event.resultIndex` on: its best-alternative `transcript` and `isFinal`
flag. -/
structure SpeechSegment where
  transcript : String
  isFinal : Bool
deriving DecidableEq

/-- Accumulation of `finalTranscript` by the loop of `recognition.onresult`
(VoiceInput.jsx lines 157-164). -/
def finalTranscript (results : List SpeechSegment) : String :=
  results.foldl (fun acc r => if r.isFinal then acc ++ r.transcript else acc) ""

/-- Accumulation of `interimTranscript` by the same loop. -/
def interimTranscript (results : List SpeechSegment) : String :=
  results.foldl (fun acc r => if r.isFinal then acc else acc ++ r.transcript) ""

/-- Translation of the body of `recognition.onresult` (VoiceInput.jsx lines
153-173): returns the displayed transcript
(`finalTranscript || interimTranscript`) and the new committed question
text (`currentText` plus a space plus `finalTranscript` when the final transcript is
non-empty, unchanged otherwise). -/
def onResultEvent (currentText : String) (results : List SpeechSegment) :
    String × String :=
  let f := finalTranscript results
  let i := interimTranscript results
  ((if f == "" then i else f),
   (if f == "" then currentText else currentText ++ " " ++ f))

/-- Product object of the `SearchResult` payload rendered by
`ProductResults.jsx` (fields per the data model; `confidence` over ℚ). -/
structure Product where
  name : String
  price : String
  original_price : Option String := none
  discount : Option String := none
  store : String
  confidence : ℚ
  rating : Option ℚ := none
  review_count : Option Nat := none
  availability : Option String := none
  shipping : Option String := none
  url : String := ""
  buy_now_url : Option String := none
  image_url : Option String := none
deriving DecidableEq

/-- Non-error `SearchResult` payload
(`{ products, search_query, total_found, stores_searched }`). -/
structure SearchResult where
  products : List Product := []
  search_query : Option String := none
  total_found : Nat := 0
  stores_searched : Nat := 0
deriving DecidableEq

/-- Value stored in the `searchResults` slot by `handleSearchRequest`:
either a parsed response body or the `{ error: message }` object built in
the catch block. -/
inductive SearchSlot where
  | results (r : SearchResult)
  | errObj (message : String)
deriving DecidableEq

/-- Outcome of the `fetch` call as seen by the surrounding code: a parsed
success body, a non-2xx response with its `statusText`, or a rejected
promise (network failure, body parse failure) with its exception message. -/
inductive FetchOutcome where
  | success (body : SearchResult)
  | httpFailure (statusText : String)
  | transportFailure (message : String)
deriving DecidableEq

/-- The try-block of `handleSearchRequest` (index.js of the search variant,
lines 220-248): a non-ok response throws
`new Error` on `Search failed: ` plus `statusText`; a transport failure is the
rejection itself. -/
def searchAttempt (o : FetchOutcome) : Except String SearchResult :=
  match o with
  | .success r => .ok r
  | .httpFailure st => .error ("Search failed: " ++ st)
  | .transportFailure m => .error m

/-- Value placed in the `searchResults` slot after the try/catch of
`handleSearchRequest`: the catch block runs `setSearchResults({ error:
error.message })`. -/
def settleSearchSlot (o : FetchOutcome) : SearchSlot :=
  match searchAttempt o with
  | .ok r => .results r
  | .error m => .errObj m

/-- Request body assembled by `handleSearchRequest` for
`POST /api/search-products`; optional fields are only present when the
corresponding `if` fires. -/
structure RequestBody where
  search_type : String
  user_id : String
  stores : List (String × String)
  image_base64 : Option String := none
  search_prompt : Option String := none
deriving DecidableEq

/-- Translation of the guard and body-assembly phase of
`handleSearchRequest` (search-variant index.js lines 209-241): `none` when
the submission is blocked (`type !== "prompt" && !photo`, alert, no fetch);
otherwise the body handed to `fetch`. -/
def buildSearchRequest (photo : Option Photo) (d : SearchData) : Option RequestBody :=
  if d.type != "prompt" && photo.isNone then
    none
  else
    some { search_type := d.type
           user_id := "web-user"
           stores := d.stores.map fun s => (s.name, s.url)
           image_base64 :=
             match photo with
             | some ph => if d.type == "photo" || d.type == "both" then some ph.base64 else none
             | none => none
           search_prompt :=
             if d.prompt != "" && (d.type == "prompt" || d.type == "both") then some d.prompt
             else none }

/-- Character filter of `price.replace` of the non-digit non-dot characters by nothing: keep only digits
and dots. -/
def stripNonNumeric (s : String) : String :=
  String.mk (s.data.filter fun c => c.isDigit || c == '.')

/-- Numeric value of a digit list read in base 10. -/
def digitsVal (ds : List Char) : Nat :=
  ds.foldl (fun n c => 10 * n + (c.toNat - 48)) 0

/-- JavaScript `parseFloat`, restricted to strings of digits and dots
(which is all `stripNonNumeric` produces): parses `digits [dot digits]`
from the front and ignores the rest; `none` models `NaN` (no leading
digits and no fraction). The parsed decimal is represented exactly as the
pair of its mantissa and its number of fraction digits, the value being
`mant / 10 ^ frac` (see `decValQ`); display prices are modelled exactly
rather than as IEEE doubles, which agree with them on order. -/
def parseFloatDec (s : String) : Option (Nat × Nat) :=
  let intPart := s.data.takeWhile Char.isDigit
  let rest := s.data.dropWhile Char.isDigit
  match rest with
  | '.' :: rest2 =>
    let fracPart := rest2.takeWhile Char.isDigit
    if intPart.isEmpty && fracPart.isEmpty then none
    else some (digitsVal (intPart ++ fracPart), fracPart.length)
  | _ => if intPart.isEmpty then none else some (digitsVal intPart, 0)

/-- Rational value of a parsed decimal. -/
def decValQ (x : Nat × Nat) : ℚ :=
  (x.1 : ℚ) / 10 ^ x.2

/-- Comparison of two parsed decimals by cross multiplication; it agrees
with `≤` on their rational values (`decLe_iff`). -/
def decLe (a b : Nat × Nat) : Bool :=
  decide (a.1 * 10 ^ b.2 ≤ b.1 * 10 ^ a.2)

/-- Parsed numeric value of the display price of a product,
`parseFloat` of `stripNonNumeric p.price`. -/
def priceVal (p : Product) : Option (Nat × Nat) :=
  parseFloatDec (stripNonNumeric p.price)

/-- Order on parsed prices used by the price comparators. A `none` (JS
`NaN`, digit-free price string) makes the JS comparator return `NaN`,
whose treatment by `Array.prototype.sort` is engine-dependent; it is fixed
here as sorting first, which keeps the relation total and transitive and
never applies to parseable prices. -/
def optDecLe : Option (Nat × Nat) → Option (Nat × Nat) → Bool
  | none, _ => true
  | some _, none => false
  | some a, some b => decLe a b

/-- Sort keys of the `sortBy` select of `ProductResults.jsx`. -/
inductive SortKey where
  | relevance
  | price_low
  | price_high
  | store
deriving DecidableEq

/-- The comparator of `filteredProducts` (ProductResults.jsx lines 45-57)
as the boolean relation `comparator(a, b) <= 0` that a stable sort keyed
on the comparator realises. `a.store.localeCompare(b.store)` is modelled
as code-point order on the store names (the two agree on the ASCII store
names this app handles). -/
def sortLe : SortKey → Product → Product → Bool
  | .price_low, a, b => optDecLe (priceVal a) (priceVal b)
  | .price_high, a, b => optDecLe (priceVal b) (priceVal a)
  | .store, a, b => decide (a.store ≤ b.store)
  | .relevance, a, b => decide (b.confidence ≤ a.confidence)

/-- Translation of the `filteredProducts` pipeline (ProductResults.jsx
lines 43-57): filter by the store select (the value `all` passes everything), then
sort with the comparator. `Array.prototype.sort` is required to be stable,
and for the total transitive relations of `sortLe` a stable sort output
is unique, so it is modelled by the stable `List.insertionSort`. -/
def filteredProducts (sortBy : SortKey) (filterStore : String)
    (products : List Product) : List Product :=
  List.insertionSort (fun a b => sortLe sortBy a b = true)
    (products.filter fun p => filterStore == "all" || p.store == filterStore)

/-- Recommendation card of the `AnalysisResult` payload. -/
structure Recommendation where
  id : Option String := none
  name : String
  price : String
  reason : String
deriving DecidableEq

/-- Non-error `AnalysisResult` payload rendered by `AnalysisResults.jsx`. -/
structure AnalysisResult where
  analysis : String := ""
  confidence_score : Option ℚ := none
  recommendations : List Recommendation := []
  persuasion_points : List String := []
  voice_response : Option String := none
deriving DecidableEq

/-- Width (in percent) of the confidence bar,
`(results.confidence_score || 0.9) * 100` (AnalysisResults.jsx line 63).
An absent field is `none`; note that JS `||` also replaces a present but
falsy score, i.e. `0`. -/
def confidenceBarWidth (confidence_score : Option ℚ) : ℚ :=
  (match confidence_score with
   | some c => if c = 0 then 9 / 10 else c
   | none => 9 / 10) * 100

/-- Slot for the analysis variant: a parsed `AnalysisResult` or the
`{ error: message }` object. -/
inductive AnalysisSlot where
  | results (r : AnalysisResult)
  | errObj (message : String)
deriving DecidableEq

/-- Outcome of the `fetch` of `handleAnalyze` (index.js analysis variant,
lines 36-62). -/
inductive AnalyzeOutcome where
  | success (body : AnalysisResult)
  | httpFailure (statusText : String)
  | transportFailure (message : String)
deriving DecidableEq

/-- The try-block of `handleAnalyze`, whose thrown message on a non-ok
response is `Analysis failed: ` plus `statusText`. -/
def analyzeAttempt (o : AnalyzeOutcome) : Except String AnalysisResult :=
  match o with
  | .success r => .ok r
  | .httpFailure st => .error ("Analysis failed: " ++ st)
  | .transportFailure m => .error m

/-- Value placed in the `analysisResults` slot after the try/catch of
`handleAnalyze` (`setAnalysisResults` of the parsed body, or of the
`{ error: message }` object in the catch block). -/
def settleAnalysisSlot (o : AnalyzeOutcome) : AnalysisSlot :=
  match analyzeAttempt o with
  | .ok r => .results r
  | .error m => .errObj m

/-- Combined UI state of the search-variant `QuanBuyApp`
(ProductResults.jsx appendix lines 200-203) together with the `promptText`
local state of the mounted `ShoppingInput`, which the app never remounts
or resets. -/
structure SearchAppState where
  photo : Option Photo
  searchResults : Option SearchSlot
  isSearching : Bool
  showPhotoUpload : Bool
  promptText : String
deriving DecidableEq

/-- Translation of `handleRetry` of the search variant (lines 257-261):
`setSearchResults(null); setPhoto(null); setShowPhotoUpload(true);` — the
`promptText` of the input component is untouched. -/
def handleRetrySearch (st : SearchAppState) : SearchAppState :=
  { st with searchResults := none, photo := none, showPhotoUpload := true }

/-- UI state of the analysis-variant `QuanBuyApp` (index.js lines 9-14). -/
structure AnalysisAppState where
  photo : Option Photo
  questionText : String
  occasion : String
  budget : String
  analysisResults : Option AnalysisSlot
  isAnalyzing : Bool
deriving DecidableEq

/-- Translation of `handleRetry` of the analysis variant (index.js lines
65-71). -/
def handleRetryAnalysis (st : AnalysisAppState) : AnalysisAppState :=
  { st with analysisResults := none, photo := none, questionText := "",
            occasion := "", budget := "" }

/-! Helper lemmas and shared concrete inputs. -/

/-- Sample accepted photo used as a concrete input. -/
def samplePhoto : Photo :=
  { file := { type := "image/png", size := 3, dataUrl := "data:image/png;base64,QUJD" },
    base64 := "QUJD", preview := "data:image/png;base64,QUJD" }

/-- The Amazon entry of `popularStores`. -/
def amazonEntry : StoreEntry :=
  { name := "Amazon", url := "amazon.com", icon := "📦" }

/-- The Target entry of `popularStores`. -/
def targetEntry : StoreEntry :=
  { name := "Target", url := "target.com", icon := "🎯" }

/-- The three products of the price-sort example of the spec. -/
def demoProducts : List Product :=
  [ { name := "A", price := "$120.00", store := "S1", confidence := 1 },
    { name := "B", price := "$15.50", store := "S2", confidence := 1 },
    { name := "C", price := "$42", store := "S3", confidence := 1 } ]

/-- The cross-multiplication comparison of parsed decimals is exactly the
order of their rational values. -/
theorem decLe_iff (a b : Nat × Nat) : decLe a b = true ↔ decValQ a ≤ decValQ b := by
  rw [decLe, decide_eq_true_iff, decValQ, decValQ,
    div_le_div_iff₀ (by positivity) (by positivity)]
  constructor
  · intro h; exact_mod_cast h
  · intro h; exact_mod_cast h

/-- Totality of the parsed-price order. -/
theorem optDecLe_total (a b : Option (Nat × Nat)) :
    optDecLe a b = true ∨ optDecLe b a = true := by
  match a, b with
  | none, _ => exact Or.inl rfl
  | some _, none => exact Or.inr rfl
  | some x, some y =>
    rcases le_total (decValQ x) (decValQ y) with h | h
    · exact Or.inl ((decLe_iff x y).mpr h)
    · exact Or.inr ((decLe_iff y x).mpr h)

/-- Transitivity of the parsed-price order. -/
theorem optDecLe_trans {a b c : Option (Nat × Nat)} :
    optDecLe a b = true → optDecLe b c = true → optDecLe a c = true := by
  match a, b, c with
  | none, _, _ => intro _ _; rfl
  | some _, none, _ => intro h _; exact absurd h (by simp [optDecLe])
  | some _, some _, none => intro _ h; exact absurd h (by simp [optDecLe])
  | some x, some y, some z =>
    intro h1 h2
    exact (decLe_iff x z).mpr (le_trans ((decLe_iff x y).mp h1) ((decLe_iff y z).mp h2))

/-- Totality of every sort-key relation. -/
theorem sortLe_total (k : SortKey) (a b : Product) :
    sortLe k a b = true ∨ sortLe k b a = true := by
  cases k with
  | relevance => simpa [sortLe] using le_total b.confidence a.confidence
  | price_low => exact optDecLe_total (priceVal a) (priceVal b)
  | price_high => exact optDecLe_total (priceVal b) (priceVal a)
  | store => simpa [sortLe] using le_total a.store b.store

/-- Transitivity of every sort-key relation. -/
theorem sortLe_trans (k : SortKey) {a b c : Product} :
    sortLe k a b = true → sortLe k b c = true → sortLe k a c = true := by
  cases k with
  | relevance =>
    simp only [sortLe, decide_eq_true_iff]
    exact fun h1 h2 => le_trans h2 h1
  | price_low => exact optDecLe_trans
  | price_high => exact fun h1 h2 => optDecLe_trans h2 h1
  | store =>
    simp only [sortLe, decide_eq_true_iff]
    exact fun h1 h2 => le_trans h1 h2

/-- The sorting stage of `filteredProducts` orders its output by the
comparator relation of the selected key. -/
theorem sorted_filteredProducts (k : SortKey) (fs : String) (l : List Product) :
    List.Pairwise (fun a b => sortLe k a b = true) (filteredProducts k fs l) := by
  haveI : IsTotal Product (fun a b => sortLe k a b = true) := ⟨sortLe_total k⟩
  haveI : IsTrans Product (fun a b => sortLe k a b = true) := ⟨fun _ _ _ => sortLe_trans k⟩
  exact List.sorted_insertionSort _ _

/-- Accumulating only the final segments ignores the non-final ones. -/
theorem foldlFinal_filter (l : List SpeechSegment) (acc : String) :
    l.foldl (fun a r => if r.isFinal then a ++ r.transcript else a) acc =
      (l.filter (·.isFinal)).foldl
        (fun a r => if r.isFinal then a ++ r.transcript else a) acc := by
  induction l generalizing acc with
  | nil => rfl
  | cons r t ih =>
    by_cases h : r.isFinal
    · simp only [List.foldl_cons, List.filter_cons, h, if_pos, ite_true]
      exact ih _
    · simp only [List.foldl_cons, List.filter_cons, h, ite_false,
        Bool.false_eq_true, if_false]
      exact ih _

/-! Claim theorems. -/

/-- Claim C1, counterexample: the claim states that a submission whose
search type includes "prompt" (so also "both") with empty prompt text is
blocked with no network call; in the code the prompt check fires only for
search type "prompt", so a "both" submission with empty prompt proceeds
and, with a photo present, reaches the fetch. -/
theorem c1_counterexample :
    handleSearch "both" "" [] [] =
      some { type := "both", prompt := "", stores := [] } ∧
    (buildSearchRequest (some samplePhoto)
        { type := "both", prompt := "", stores := [] }).isSome = true := by
  decide

/-- Claim C1 (amended): `handleSearch` blocks the submission (alert, no
network call) exactly when the search type is "prompt" and the trimmed
prompt text is empty; when the search type is "prompt" with non-blank
prompt the submission proceeds, and when it is "both" no prompt validation
occurs and the submission always proceeds. -/
theorem c1_prompt_gate (searchType promptText : String)
    (ss ds : List StoreEntry) :
    (searchType = "prompt" → jsTrim promptText = "" →
      handleSearch searchType promptText ss ds = none) ∧
    (searchType = "prompt" → jsTrim promptText ≠ "" →
      handleSearch searchType promptText ss ds =
        some { type := searchType, prompt := promptText, stores := ss ++ ds }) ∧
    (searchType = "both" →
      handleSearch searchType promptText ss ds =
        some { type := searchType, prompt := promptText, stores := ss ++ ds }) := by
  refine ⟨fun h1 h2 => ?_, fun h1 h2 => ?_, fun h1 => ?_⟩
  · subst h1; simp [handleSearch, h2]
  · subst h1; simp [handleSearch, h2]
  · subst h1; simp [handleSearch]

/-- Witness for `c1_prompt_gate`: a "prompt" submission with a non-blank
prompt proceeds. -/
theorem c1_witness :
    ("prompt" = "prompt" ∧ jsTrim "red dress" ≠ "") ∧
    handleSearch "prompt" "red dress" [] [] =
      some { type := "prompt", prompt := "red dress", stores := [] } :=
  ⟨⟨rfl, by decide⟩,
    ((c1_prompt_gate "prompt" "red dress" [] []).2.1 rfl (by decide)).trans (by decide)⟩

/-- Claim C2, counterexample: the claim states the retry action clears the
photo, the prompt text and the result; in the search variant the prompt
text, which lives in the input component, is not cleared. -/
theorem c2_counterexample :
    (handleRetrySearch
      { photo := some samplePhoto, searchResults := some (.errObj "timeout"),
        isSearching := false, showPhotoUpload := false,
        promptText := "red dress" }).promptText ≠ "" := by
  decide

/-- Claim C2 (amended): in both variants retry clears the result and the
photo and returns the controller to idle (the search variant also re-shows
the upload panel); the analysis variant additionally clears the question
text, occasion and budget, while the search variant leaves the prompt text
of the input component unchanged. -/
theorem c2_retry_clears (st : SearchAppState) (st' : AnalysisAppState) :
    handleRetrySearch st =
      { photo := none, searchResults := none, isSearching := st.isSearching,
        showPhotoUpload := true, promptText := st.promptText } ∧
    handleRetryAnalysis st' =
      { photo := none, questionText := "", occasion := "", budget := "",
        analysisResults := none, isAnalyzing := st'.isAnalyzing } :=
  ⟨rfl, rfl⟩

/-- Claim C3, counterexample: the claim states every malformed dropped URL
string is silently ignored and the handler completes without raising any
error; a string that starts with "http" but is rejected by the URL
constructor makes the handler raise an uncaught exception. -/
theorem c3_counterexample :
    handleUrlDrop [] "httpbad" = Except.error () := by
  decide

/-- Claim C3 (amended): a dropped string that is empty or does not start
with "http" is silently ignored; one that parses as a URL is reduced to
its hostname with the first (not necessarily leading) occurrence of
"www." removed and appended unless an entry with that hostname is already
present, preserving freedom from duplicate urls; and one that starts with
"http" but fails to parse raises an uncaught error. -/
theorem c3_url_drop (dragged : List StoreEntry) (url host : String) :
    ((url != "" && jsStartsWith url "http") = false →
      handleUrlDrop dragged url = .ok dragged) ∧
    ((url != "" && jsStartsWith url "http") = true → urlHostname url = none →
      handleUrlDrop dragged url = .error ()) ∧
    ((url != "" && jsStartsWith url "http") = true → urlHostname url = some host →
      handleUrlDrop dragged url = .ok
        (if (dragged.find? fun s => s.url == replaceFirst host "www." "").isSome then
          dragged
        else
          dragged ++ [{ name := capFirst (replaceFirst host "www." ""),
                        url := replaceFirst host "www." "", icon := "🌐",
                        custom := true }])) ∧
    (List.Pairwise (fun a b => a.url ≠ b.url) dragged →
      ∀ l, handleUrlDrop dragged url = .ok l →
        List.Pairwise (fun a b => a.url ≠ b.url) l) := by
  refine ⟨fun h1 => ?_, fun h1 h2 => ?_, fun h1 h2 => ?_, fun hnd l hl => ?_⟩
  · simp [handleUrlDrop, h1]
  · simp [handleUrlDrop, h1, h2]
  · simp only [handleUrlDrop, h1, h2, if_true]
    split <;> rfl
  · by_cases h1 : (url != "" && jsStartsWith url "http") = true
    · rcases hu : urlHostname url with _ | host'
      · rw [handleUrlDrop, if_pos h1, hu] at hl
        exact absurd hl (by simp)
      · rw [handleUrlDrop, if_pos h1, hu] at hl
        simp only at hl
        by_cases hf :
            (dragged.find? fun s => s.url == replaceFirst host' "www." "").isSome = true
        · rw [if_pos hf] at hl
          cases hl
          exact hnd
        · rw [if_neg hf] at hl
          cases hl
          rw [List.pairwise_append]
          refine ⟨hnd, List.pairwise_singleton _ _, fun a ha b hb => ?_⟩
          have hfn : (dragged.find? fun s => s.url == replaceFirst host' "www." "") = none := by
            cases hx : dragged.find? fun s => s.url == replaceFirst host' "www." ""
            · rfl
            · rw [hx] at hf; simp at hf
          have := List.find?_eq_none.mp hfn a ha
          rw [List.mem_singleton] at hb
          subst hb
          simpa using this
    · rw [handleUrlDrop, if_neg h1] at hl
      cases hl
      exact hnd

/-- Witness for `c3_url_drop` at a concrete well-formed dropped URL. -/
theorem c3_witness :
    (("http://www.example.com/x" != "" &&
        jsStartsWith "http://www.example.com/x" "http") = true ∧
      urlHostname "http://www.example.com/x" = some "www.example.com") ∧
    handleUrlDrop [] "http://www.example.com/x" =
      .ok [{ name := "Example.com", url := "example.com", icon := "🌐",
             custom := true }] :=
  ⟨⟨by decide, by decide⟩,
    ((c3_url_drop [] "http://www.example.com/x" "www.example.com").2.2.1
        (by decide) (by decide)).trans (by decide)⟩

/-- Claim C9, counterexample: double toggling a store that sits in the
middle of a duplicate-free selected list moves it to the end instead of
returning the list unchanged. -/
theorem c9_counterexample :
    (([amazonEntry, targetEntry].map StoreEntry.url).Nodup) ∧
    handleStoreToggle (handleStoreToggle [amazonEntry, targetEntry] amazonEntry)
        amazonEntry ≠ [amazonEntry, targetEntry] := by
  decide

/-- Claim C9 (amended): one toggle appends the store when no entry with
its url is present and removes every entry with that url otherwise; two
successive toggles restore the list exactly when the url was absent, and
otherwise produce the list with the url-matching entries removed and the
toggled store appended at the end. -/
theorem c9_toggle (L : List StoreEntry) (s : StoreEntry) :
    ((L.find? fun e => e.url == s.url).isSome = false →
      handleStoreToggle L s = L ++ [s]) ∧
    ((L.find? fun e => e.url == s.url).isSome = true →
      handleStoreToggle L s = L.filter fun e => e.url != s.url) ∧
    ((L.find? fun e => e.url == s.url).isSome = false →
      handleStoreToggle (handleStoreToggle L s) s = L) ∧
    ((L.find? fun e => e.url == s.url).isSome = true →
      handleStoreToggle (handleStoreToggle L s) s =
        (L.filter fun e => e.url != s.url) ++ [s]) := by
  have hfn : (L.find? fun e => e.url == s.url).isSome = false →
      (L.find? fun e => e.url == s.url) = none := by
    cases hx : L.find? fun e => e.url == s.url
    · intro _; rfl
    · intro h; simp at h
  refine ⟨fun h => ?_, fun h => ?_, fun h => ?_, fun h => ?_⟩
  · simp [handleStoreToggle, h]
  · simp [handleStoreToggle, h]
  · have h1 : handleStoreToggle L s = L ++ [s] := by simp [handleStoreToggle, h]
    rw [h1]
    have hmem : (((L ++ [s]).find? fun e => e.url == s.url).isSome) = true := by
      rw [List.find?_isSome]
      exact ⟨s, by simp, by simp⟩
    have hLfix : (L.filter fun e => e.url != s.url) = L := by
      rw [List.filter_eq_self]
      intro a ha
      have := List.find?_eq_none.mp (hfn h) a ha
      simpa using this
    simp [handleStoreToggle, hmem, List.filter_append, hLfix]
  · have h1 : handleStoreToggle L s = L.filter fun e => e.url != s.url := by
      simp [handleStoreToggle, h]
    rw [h1]
    have hnone : ((L.filter fun e => e.url != s.url).find? fun e => e.url == s.url)
        = none := by
      rw [List.find?_eq_none]
      intro x hx
      rw [List.mem_filter] at hx
      have := hx.2
      simp only [bne_iff_ne, ne_eq] at this
      simp [this]
    simp [handleStoreToggle, hnone]

/-- Witness for `c9_toggle`: toggling a store twice starting from the
empty selection restores the empty selection. -/
theorem c9_witness :
    ((([] : List StoreEntry).find? fun e => e.url == amazonEntry.url).isSome = false) ∧
    handleStoreToggle (handleStoreToggle [] amazonEntry) amazonEntry = [] :=
  ⟨rfl, (c9_toggle [] amazonEntry).2.2.1 rfl⟩

/-- Claim C4: price-ascending and price-descending order by the numeric
value parsed from the display price with non-numeric characters stripped
(the cross-multiplication relation `decLe` being exactly the order of the
rational values), relevance orders by descending confidence, store orders
lexicographically by store name, the sorted output is a permutation of the
filtered input, and price-ascending on the example prices yields the
stated order. -/
theorem c4_sort_semantics :
    ((filteredProducts .price_low "all" demoProducts).map Product.price =
      ["$15.50", "$42", "$120.00"]) ∧
    (∀ x y : Nat × Nat, decLe x y = true ↔ decValQ x ≤ decValQ y) ∧
    (∀ fs l, List.Pairwise
        (fun a b => optDecLe (priceVal a) (priceVal b) = true)
        (filteredProducts .price_low fs l)) ∧
    (∀ fs l, List.Pairwise
        (fun a b => optDecLe (priceVal b) (priceVal a) = true)
        (filteredProducts .price_high fs l)) ∧
    (∀ fs l, List.Pairwise (fun a b => b.confidence ≤ a.confidence)
        (filteredProducts .relevance fs l)) ∧
    (∀ fs l, List.Pairwise (fun a b => a.store ≤ b.store)
        (filteredProducts .store fs l)) ∧
    (∀ k fs l, (filteredProducts k fs l).Perm
        (l.filter fun p => fs == "all" || p.store == fs)) := by
  refine ⟨by decide, decLe_iff, fun fs l => ?_, fun fs l => ?_, fun fs l => ?_,
    fun fs l => ?_, fun k fs l => List.perm_insertionSort _ _⟩
  · exact sorted_filteredProducts .price_low fs l
  · exact sorted_filteredProducts .price_high fs l
  · exact (sorted_filteredProducts .relevance fs l).imp fun h => of_decide_eq_true h
  · exact (sorted_filteredProducts .store fs l).imp fun h => of_decide_eq_true h

/-- Claim C5: a non-success HTTP status produces an error-only result
object whose message carries the status text (as a suffix of the
synthesized message), a transport failure produces one carrying the
exception message, and neither dispatcher ever places a results payload
in the slot on a failure. -/
theorem c5_dispatch_errors :
    (∀ st, settleSearchSlot (.httpFailure st) = .errObj ("Search failed: " ++ st) ∧
      settleAnalysisSlot (.httpFailure st) = .errObj ("Analysis failed: " ++ st)) ∧
    (∀ m, settleSearchSlot (.transportFailure m) = .errObj m ∧
      settleAnalysisSlot (.transportFailure m) = .errObj m) ∧
    (∀ st r r', settleSearchSlot (.httpFailure st) ≠ .results r ∧
      settleSearchSlot (.transportFailure st) ≠ .results r ∧
      settleAnalysisSlot (.httpFailure st) ≠ .results r' ∧
      settleAnalysisSlot (.transportFailure st) ≠ .results r') ∧
    (∀ st, (∃ p, "Search failed: " ++ st = p ++ st) ∧
      ∃ p, "Analysis failed: " ++ st = p ++ st) :=
  ⟨fun _ => ⟨rfl, rfl⟩, fun _ => ⟨rfl, rfl⟩,
    fun _ _ _ => ⟨fun h => SearchSlot.noConfusion h, fun h => SearchSlot.noConfusion h,
      fun h => AnalysisSlot.noConfusion h, fun h => AnalysisSlot.noConfusion h⟩,
    fun _ => ⟨⟨"Search failed: ", rfl⟩, ⟨"Analysis failed: ", rfl⟩⟩⟩

/-- Claim C6: an image-typed file of size at most 5 MB is accepted and a
photo carrying the base64 payload of its data URL is handed to the
caller; a non-image file or one over 5 MB is rejected with an alert and
the current photo is left unchanged. -/
theorem c6_file_validation (file : JSFile) (current : Option Photo) :
    (jsStartsWith file.type "image/" = true → file.size ≤ 5 * 1024 * 1024 →
      handleFileSelect file current =
        (some { file := file, base64 := dataUrlBase64 file.dataUrl,
                preview := file.dataUrl }, none)) ∧
    (jsStartsWith file.type "image/" = false →
      handleFileSelect file current = (current, some "Please select an image file")) ∧
    (file.size > 5 * 1024 * 1024 →
      (handleFileSelect file current).1 = current ∧
      ((handleFileSelect file current).2).isSome = true) := by
  refine ⟨fun h1 h2 => ?_, fun h1 => ?_, fun h1 => ?_⟩
  · simp [handleFileSelect, h1, Nat.not_lt.mpr h2]
  · simp [handleFileSelect, h1]
  · by_cases h2 : jsStartsWith file.type "image/" = true
    · simp [handleFileSelect, h2, h1]
    · have h2f : jsStartsWith file.type "image/" = false := by
        simpa using h2
      simp [handleFileSelect, h2f]

/-- Witness for `c6_file_validation` at a concrete accepted image file. -/
theorem c6_witness :
    (jsStartsWith "image/png" "image/" = true ∧ (3 : Nat) ≤ 5 * 1024 * 1024) ∧
    handleFileSelect
        { type := "image/png", size := 3, dataUrl := "data:image/png;base64,QUJD" }
        none =
      (some samplePhoto, none) :=
  ⟨⟨by decide, by decide⟩,
    ((c6_file_validation
        { type := "image/png", size := 3, dataUrl := "data:image/png;base64,QUJD" }
        none).1 (by decide) (by decide)).trans (by decide)⟩

/-- Claim C7, counterexample: a present confidence score of 0 is falsy in
JS, so the rendered bar width is the 90 percent fallback rather than the
0 percent the claim requires for a present score. -/
theorem c7_counterexample :
    confidenceBarWidth (some 0) = 90 ∧ (0 : ℚ) * 100 ≠ 90 := by
  constructor
  · norm_num [confidenceBarWidth]
  · norm_num

/-- Claim C7 (amended): the confidence bar width equals the confidence
score times 100 percent when the score is present and non-zero, and is
the 90 percent default when the score is absent or zero. -/
theorem c7_bar_width (c : ℚ) :
    confidenceBarWidth none = 90 ∧ confidenceBarWidth (some 0) = 90 ∧
    (c ≠ 0 → confidenceBarWidth (some c) = c * 100) := by
  refine ⟨by norm_num [confidenceBarWidth], by norm_num [confidenceBarWidth],
    fun h => ?_⟩
  simp [confidenceBarWidth, h]

/-- Witness for `c7_bar_width` at confidence score 1. -/
theorem c7_witness : (1 : ℚ) ≠ 0 ∧ confidenceBarWidth (some 1) = 1 * 100 :=
  ⟨one_ne_zero, (c7_bar_width 1).2.2 one_ne_zero⟩

/-- Claim C8: for every recognition result event a non-empty final
transcript is appended to the existing text with a single separating
space; with no final transcript the text is unchanged and the interim
transcript is only displayed; and the committed text never depends on the
non-final segments. -/
theorem c8_voice_commit (currentText : String) (results : List SpeechSegment) :
    (finalTranscript results ≠ "" →
      (onResultEvent currentText results).2 =
        currentText ++ " " ++ finalTranscript results) ∧
    (finalTranscript results = "" →
      (onResultEvent currentText results).2 = currentText ∧
      (onResultEvent currentText results).1 = interimTranscript results) ∧
    ((onResultEvent currentText results).2 =
      (onResultEvent currentText (results.filter (·.isFinal))).2) := by
  refine ⟨fun h => ?_, fun h => ?_, ?_⟩
  · simp [onResultEvent, h]
  · simp [onResultEvent, h]
  · have hf : finalTranscript (results.filter fun x => x.isFinal) =
        finalTranscript results :=
      (foldlFinal_filter results "").symm
    simp only [onResultEvent]
    rw [hf]

/-- Witness for `c8_voice_commit` at a concrete event with one final and
one interim segment. -/
theorem c8_witness :
    finalTranscript [⟨"world", true⟩, ⟨"um", false⟩] ≠ "" ∧
    (onResultEvent "hello" [⟨"world", true⟩, ⟨"um", false⟩]).2 = "hello world" :=
  ⟨by decide,
    ((c8_voice_commit "hello" [⟨"world", true⟩, ⟨"um", false⟩]).1 (by decide)).trans
      (by decide)⟩

/-- Claim C10: a dispatched request body includes image_base64 exactly
when a photo is present and the search type is photo or both, and
includes search_prompt exactly when the prompt is non-empty and the
search type is prompt or both; in particular a prompt-only search never
carries image data even with a photo uploaded, and a both-search with an
empty prompt carries no search_prompt field. -/
theorem c10_request_fields (photo : Option Photo) (d : SearchData)
    (body : RequestBody) (h : buildSearchRequest photo d = some body) :
    (body.image_base64.isSome = true ↔
      photo.isSome = true ∧ (d.type = "photo" ∨ d.type = "both")) ∧
    (body.search_prompt.isSome = true ↔
      d.prompt ≠ "" ∧ (d.type = "prompt" ∨ d.type = "both")) ∧
    (d.type = "prompt" → body.image_base64 = none) ∧
    (d.type = "both" → d.prompt = "" → body.search_prompt = none) := by
  rw [buildSearchRequest.eq_def] at h
  by_cases hg : (d.type != "prompt" && photo.isNone) = true
  · rw [if_pos hg] at h; cases h
  rw [if_neg hg] at h
  obtain rfl : body = _ := (Option.some.inj h).symm
  refine ⟨?_, ?_, fun ht => ?_, fun ht hp => ?_⟩
  · cases photo with
    | none => simp
    | some ph =>
      by_cases hc : d.type = "photo" ∨ d.type = "both"
      · have hb : (d.type == "photo" || d.type == "both") = true := by
          rcases hc with h' | h' <;> simp [h']
        simp [hb, hc]
      · have hb : (d.type == "photo" || d.type == "both") = false := by
          rw [Bool.or_eq_false_iff]
          exact ⟨beq_eq_false_iff_ne.mpr fun h' => hc (Or.inl h'),
            beq_eq_false_iff_ne.mpr fun h' => hc (Or.inr h')⟩
        simp [hb, hc]
  · by_cases hp : d.prompt = ""
    · simp [hp]
    · by_cases hc : d.type = "prompt" ∨ d.type = "both"
      · have hb : (d.type == "prompt" || d.type == "both") = true := by
          rcases hc with h' | h' <;> simp [h']
        simp [hp, hb, hc]
      · have hb : (d.type == "prompt" || d.type == "both") = false := by
          rw [Bool.or_eq_false_iff]
          exact ⟨beq_eq_false_iff_ne.mpr fun h' => hc (Or.inl h'),
            beq_eq_false_iff_ne.mpr fun h' => hc (Or.inr h')⟩
        simp [hp, hb, hc]
  · cases photo with
    | none => rfl
    | some ph => simp [ht]
  · simp [hp]

/-- Witness for `c10_request_fields`: a both-search with an uploaded
photo and empty prompt carries the image and no search_prompt field. -/
theorem c10_witness :
    buildSearchRequest (some samplePhoto)
        { type := "both", prompt := "", stores := [amazonEntry] } =
      some { search_type := "both", user_id := "web-user",
             stores := [("Amazon", "amazon.com")],
             image_base64 := some "QUJD", search_prompt := none } ∧
    ({ search_type := "both", user_id := "web-user",
       stores := [("Amazon", "amazon.com")],
       image_base64 := some "QUJD", search_prompt := none } : RequestBody).search_prompt
      = none :=
  ⟨by decide,
    (c10_request_fields (some samplePhoto)
        { type := "both", prompt := "", stores := [amazonEntry] } _ (by decide)).2.2.2
      rfl rfl⟩

end QuanBuy
